import Mathlib

/-!
Verification of the GridPulse simulation core against its specification.

This file gives a shallow embedding, over exact rational arithmetic, of the
algorithmic parts of the repository:

* `ImageData` (src/src/utils/ImageData.ts): pixel field with point and
  bilinear sampling, and the packed 3-channel height encoding.
* `ShipControls` (src/src/physics/ShipControls.ts): the per-tick vehicle
  physics pipeline (thrust, clamping, drift, repulsion, boost pads,
  height following, wall collision, shield/destruction).
* `RaceData` (src/src/core/RaceData.ts): replay recording and interpolated
  playback.
* `Gameplay` (src/src/core/Gameplay.ts): time-attack checkpoint and lap
  logic and the race-end transition.

Modelling conventions:

* JavaScript numbers are modelled as `ℚ` (all constants in the source are
  exact decimals and all relevant operations are field operations, so the
  rational semantics coincides with the float semantics on the inputs used
  by the theorems below).
* The geometric projection from craft pose to map coordinates goes through
  a quaternion-derived matrix (irrational in general); the sampled map
  values that the physics pipeline reads are therefore supplied per tick by
  a `TickEnv` oracle, exactly as the claims themselves are phrased in terms
  of the sampled probe values.
* DOM, audio, HUD, mesh-matrix composition (the pitch/bank/roll visual
  transform) and the `atan2`-based pitch/bank targets are outside the
  embedding: they read the state modelled here but feed only the renderer.
* Fallible array access is modelled with `Option`: a JavaScript access to a
  missing element yields `undefined`, and a subsequent property read throws
  a `TypeError`; the embedding of `RaceData.applyInterpolated` returns an
  explicit `throwErr` effect at exactly those points.
-/

/-- RGBA byte pixel as returned by `ImageData.getPixel`. -/
structure PixelN where
  r : ℕ
  g : ℕ
  b : ℕ
  a : ℕ
deriving DecidableEq, Repr

/-- RGBA pixel with rational channels as returned by `ImageData.getPixelBilinear`. -/
structure PixelQ where
  r : ℚ
  g : ℚ
  b : ℚ
  a : ℚ
deriving DecidableEq, Repr

/-- Embedding of the `ImageData` class: width/height in pixels, a flat RGBA
byte buffer, and the `loaded` flag (`loaded = false` models `pixels == null`). -/
structure ImageData where
  loaded : Bool
  width : ℕ
  height : ℕ
  data : List ℕ
deriving DecidableEq, Repr

/-- `ImageData.getPixel(x, y)`: nearest-pixel lookup; out of bounds or not
loaded returns the zero pixel, exactly as in the source. -/
def ImageData.getPixel (img : ImageData) (x y : ℤ) : PixelN :=
  if img.loaded = false ∨ x < 0 ∨ y < 0 ∨ (img.width : ℤ) ≤ x ∨ (img.height : ℤ) ≤ y then
    ⟨0, 0, 0, 0⟩
  else
    let index := (y * (img.width : ℤ) + x).toNat * 4
    ⟨img.data.getD index 0, img.data.getD (index + 1) 0,
      img.data.getD (index + 2) 0, img.data.getD (index + 3) 0⟩

/-- One channel of the 4-neighbor blend of `getPixelBilinear`: horizontal
interpolation with weight `ax`, then vertical with weight `ay`. -/
def bilinearChannel (c cx cy cxy ax ay : ℚ) : ℚ :=
  (1 - ay) * ((1 - ax) * c + ax * cx) + ay * ((1 - ax) * cy + ax * cxy)

/-- `ImageData.getPixelBilinear(fx, fy)`: half-pixel-centered 4-neighbor
interpolation. `floor fx` picks the base pixel, the weight is
`|fx - floor fx - 0.5|`, and the neighbor on each axis is chosen by the sign
of that offset. -/
def ImageData.getPixelBilinear (img : ImageData) (fx fy : ℚ) : PixelQ :=
  let x : ℤ := ⌊fx⌋
  let y : ℤ := ⌊fy⌋
  let rx : ℚ := fx - x - 0.5
  let ry : ℚ := fy - y - 0.5
  let ax : ℚ := |rx|
  let ay : ℚ := |ry|
  let dx : ℤ := if rx < 0 then -1 else 1
  let dy : ℤ := if ry < 0 then -1 else 1
  let c := img.getPixel x y
  let cx := img.getPixel (x + dx) y
  let cy := img.getPixel x (y + dy)
  let cxy := img.getPixel (x + dx) (y + dy)
  ⟨bilinearChannel c.r cx.r cy.r cxy.r ax ay,
    bilinearChannel c.g cx.g cy.g cxy.g ax ay,
    bilinearChannel c.b cx.b cy.b cxy.b ax ay,
    bilinearChannel c.a cx.a cy.a cxy.a ax ay⟩

/-- `ImageData.getPixelF(x, y)`: packed 3-channel height code
`r + g*255 + b*255*255`. -/
def ImageData.getPixelF (img : ImageData) (x y : ℤ) : ℕ :=
  let c := img.getPixel x y
  c.r + c.g * 255 + c.b * 255 * 255

/-- `ImageData.getPixelFBilinear(fx, fy)`: bilinear packed height code. -/
def ImageData.getPixelFBilinear (img : ImageData) (fx fy : ℚ) : ℚ :=
  let c := img.getPixelBilinear fx fy
  c.r + c.g * 255 + c.b * 255 * 255

/-- All bytes of the backing buffer are in range (true of any canvas
`ImageData` buffer). -/
def ImageData.WF (img : ImageData) : Prop :=
  ∀ v ∈ img.data, v ≤ 255

/-- Diagonal one-sided convergence of the r channel of the bilinear sample to
the point sample of the base pixel, as the fractional offset on both axes
tends to `0` from above. -/
def convergesAtOffsetZero (img : ImageData) (x y : ℤ) : Prop :=
  ∀ eps : ℚ, 0 < eps → ∃ del : ℚ, 0 < del ∧ ∀ u : ℚ, 0 < u → u < del →
    |(img.getPixelBilinear ((x : ℚ) + u) ((y : ℚ) + u)).r - ((img.getPixel x y).r : ℚ)| < eps

/-- Diagonal one-sided convergence of the r channel of the bilinear sample to
the point sample of the base pixel, as the fractional offset on both axes
tends to `1` from below. -/
def convergesAtOffsetOne (img : ImageData) (x y : ℤ) : Prop :=
  ∀ eps : ℚ, 0 < eps → ∃ del : ℚ, 0 < del ∧ ∀ u : ℚ, 0 < u → u < del →
    |(img.getPixelBilinear ((x : ℚ) + 1 - u) ((y : ℚ) + 1 - u)).r - ((img.getPixel x y).r : ℚ)| < eps

/-- The convergence property asserted by the specification: for every loaded
pixel field and in-bounds coordinates, the bilinear sample converges to the
point sample of the base pixel as the fractional offsets approach 0 or 1 on
both axes. -/
def bilinearConvergesAtIntegerOffsets : Prop :=
  ∀ img : ImageData, img.loaded = true →
    ∀ x y : ℤ, 0 ≤ x → x < (img.width : ℤ) → 0 ≤ y → y < (img.height : ℤ) →
      convergesAtOffsetZero img x y ∧ convergesAtOffsetOne img x y

/-- A concrete 2x1 pixel field: pixel (0,0) has red 100, pixel (1,0) has red 0. -/
def demoImg : ImageData :=
  ⟨true, 2, 1, [100, 0, 0, 0, 0, 0, 0, 0]⟩

/-- JavaScript `Math.round`: round half toward positive infinity. -/
def jround (q : ℚ) : ℤ :=
  ⌊q + 0.5⌋

/-! ## ShipControls (src/src/physics/ShipControls.ts)

The private physics constants of the class are fixed at construction and
never reassigned; they are embedded as plain definitions. -/

def ShipControls.epsilon : ℚ := 0.00000001
def ShipControls.airResist : ℚ := 0.02
def ShipControls.airDrift : ℚ := 0.1
def ShipControls.thrust : ℚ := 0.02
def ShipControls.airBrake : ℚ := 0.02
def ShipControls.maxSpeed : ℚ := 7.0
def ShipControls.boosterSpeed : ℚ := ShipControls.maxSpeed * 0.2
def ShipControls.boosterDecay : ℚ := 0.01
def ShipControls.angularSpeed : ℚ := 0.005
def ShipControls.airAngularSpeed : ℚ := 0.0065
def ShipControls.repulsionRatio : ℚ := 0.5
def ShipControls.repulsionCap : ℚ := 2.5
def ShipControls.repulsionLerp : ℚ := 0.1
def ShipControls.collisionSpeedDecrease : ℚ := 0.8
def ShipControls.collisionSpeedDecreaseCoef : ℚ := 0.8
def ShipControls.maxShield : ℚ := 1.0
def ShipControls.shieldDamage : ℚ := 0.25
def ShipControls.driftLerp : ℚ := 0.35
def ShipControls.angularLerp : ℚ := 0.35
def ShipControls.heightLerp : ℚ := 0.4
def ShipControls.heightScale : ℚ := 1.0

/-- The mutable state of a `ShipControls` instance, restricted to the fields
the physics pipeline reads or writes. The pose (position/quaternion) is
external to this model except for the scalar fields below; the visual
pitch/bank/roll state feeds only the mesh matrix and is omitted. -/
structure ShipControls where
  active : Bool
  destroyed : Bool
  falling : Bool
  keyForward : Bool
  keyLeft : Bool
  keyRight : Bool
  keyLtrigger : Bool
  keyRtrigger : Bool
  speed : ℚ
  speedRatio : ℚ
  boost : ℚ
  shield : ℚ
  drift : ℚ
  angular : ℚ
  rotationY : ℚ
  movementX : ℚ
  movementY : ℚ
  movementZ : ℚ
  repulsionForceX : ℚ
  repulsionForceY : ℚ
  repulsionForceZ : ℚ
  repulsionAmount : ℚ
  collisionFront : Bool
  collisionLeft : Bool
  collisionRight : Bool
  shieldDelay : ℚ
  collisionDetection : Bool
  heightBias : ℚ
deriving DecidableEq, Repr

/-- The map samples read during one tick. The projection from the craft pose
to map pixel coordinates goes through the (irrational) pose matrix, so the
sampled values themselves are the oracle. `none` models a missing or
not-yet-loaded map (the corresponding check is skipped in the source). -/
structure CollisionSample where
  r : ℚ
  g : ℚ
  b : ℚ
  a : ℚ
  lCol : ℕ
  rCol : ℕ
  fCol : ℕ
deriving DecidableEq, Repr

/-- Raw height-map read for one tick: the craft's current y position and the
packed height code sampled by `getPixelFBilinear` at its map coordinate. -/
structure HeightSample where
  posY : ℚ
  hRaw : ℚ
deriving DecidableEq, Repr

/-- Per-tick sampling environment. -/
structure TickEnv where
  boosterPixel : Option PixelN
  collisionSample : Option CollisionSample
  heightSample : Option HeightSample
deriving DecidableEq, Repr

/-- The collision-map bilinear sample, if present, is a blend of bytes and
hence nonnegative. -/
def TickEnv.WF (env : TickEnv) : Prop :=
  ∀ cs ∈ env.collisionSample, 0 ≤ cs.r

/-- `ShipControls.destroy()`: deactivate, set the terminal `destroyed` flag
and clear the collision flags. -/
def ShipControls.destroy (s : ShipControls) : ShipControls :=
  { s with active := false, destroyed := true,
           collisionFront := false, collisionLeft := false, collisionRight := false }

/-- `ShipControls.fall()`: deactivate, clear the collision flags, start
falling. The delayed `destroyed := true` fired by `setTimeout` 1500 ms later
is real-time behavior outside this embedding. -/
def ShipControls.fall (s : ShipControls) : ShipControls :=
  { s with active := false, falling := true,
           collisionFront := false, collisionLeft := false, collisionRight := false }

/-- `ShipControls.reset(position, rotation)`: zero all kinematic state,
refill the shield and clear `destroyed`; `ry` is the y component of the
supplied rotation vector. -/
def ShipControls.reset (s : ShipControls) (ry : ℚ) : ShipControls :=
  { s with movementX := 0, movementY := 0, movementZ := 0, rotationY := ry,
           drift := 0, speed := 0, speedRatio := 0, boost := 0,
           shield := ShipControls.maxShield, destroyed := false }

/-- `ShipControls.getRealSpeed()` with the default scale 1: rounded
`speed + boost`. -/
def ShipControls.getRealSpeed (s : ShipControls) : ℚ :=
  (jround (s.speed + s.boost) : ℚ)

/-- `ShipControls.boosterCheck(dt)`: decay the boost, clamp at zero, refill
to `boosterSpeed` on a boost-pad pixel (pure red: r = 255, g < 127, b < 127),
and add `boost * dt` to the forward movement. Skipped when the collision map
is absent or not loaded. -/
def ShipControls.boosterCheck (s : ShipControls) (dt : ℚ) (env : TickEnv) : ShipControls :=
  match env.boosterPixel with
  | none => s
  | some px =>
    let boost1 := s.boost - ShipControls.boosterDecay * dt
    let boost2 := if boost1 < 0 then 0 else boost1
    let boost3 := if px.r = 255 ∧ px.g < 127 ∧ px.b < 127 then ShipControls.boosterSpeed else boost2
    { s with boost := boost3, movementZ := s.movementZ + boost3 * dt }

/-- `ShipControls.heightCheck(dt)`: compute the target height from the packed
sample; below 16777 the craft moves toward it, the full delta when below the
terrain and `delta * heightLerp` when above; at or above 16777 the vertical
movement is untouched. The `atan2`-based pitch/bank targets computed
afterwards feed only the mesh matrix and are outside this embedding. -/
def ShipControls.heightCheck (s : ShipControls) (env : TickEnv) : ShipControls :=
  match env.heightSample with
  | none => s
  | some hs =>
    let height := hs.hRaw / ShipControls.heightScale + s.heightBias
    if height < 16777 then
      let delta := height - hs.posY
      { s with movementY := s.movementY + (if delta > 0 then delta else delta * ShipControls.heightLerp) }
    else s

/-- `ShipControls.collisionCheck(dt)`: on a wall pixel (bilinear red < 255)
apply speed-proportional shield damage, choose the repulsion direction from
the two side probes (repulse away from the side with the lower red value,
head-on when equal), detect falling off the track when both side probes and
the forward probe read below 128, and damp speed by the fixed decrease and by
the solidity of the wall pixel. Skipped when collision detection is off or
the map is absent. -/
def ShipControls.collisionCheck (s : ShipControls) (dt : ℚ) (env : TickEnv) : ShipControls :=
  if s.collisionDetection = false then s else
  match env.collisionSample with
  | none => s
  | some cs =>
    let s1 := if s.shieldDelay > 0 then { s with shieldDelay := s.shieldDelay - dt } else s
    let s2 := { s1 with collisionLeft := false, collisionRight := false, collisionFront := false }
    if cs.r < 255 then
      let sr := s2.getRealSpeed / ShipControls.maxSpeed
      let s3 := { s2 with shield := s2.shield - sr * sr * 0.8 * ShipControls.shieldDamage }
      let amount := max 0.8 (min ShipControls.repulsionCap (s3.speed * ShipControls.repulsionRatio))
      let s4 := { s3 with repulsionAmount := amount }
      let s5 :=
        if cs.rCol > cs.lCol then
          { s4 with repulsionForceX := s4.repulsionForceX - amount, collisionLeft := true }
        else if cs.rCol < cs.lCol then
          { s4 with repulsionForceX := s4.repulsionForceX + amount, collisionRight := true }
        else
          { s4 with repulsionForceZ := s4.repulsionForceZ - amount * 4, collisionFront := true, speed := 0 }
      let s6 := if cs.rCol < 128 ∧ cs.lCol < 128 ∧ cs.fCol < 128 then s5.fall else s5
      let s7 := { s6 with speed := s6.speed * ShipControls.collisionSpeedDecrease }
      let s8 := { s7 with speed := s7.speed * (1 - ShipControls.collisionSpeedDecreaseCoef * (1 - cs.r / 255)) }
      { s8 with boost := 0 }
    else s2

/-- Steering/roll intention accumulated by `update` from the keyboard and the
air-brake triggers, in source order (the summands commute, so the three
accumulation sites are combined). Zero while input is inactive. -/
def ShipControls.angularAmount (s : ShipControls) (dt : ℚ) : ℚ :=
  if s.active then
    (if s.keyLeft then ShipControls.angularSpeed * dt else 0) +
    (if s.keyRight then -(ShipControls.angularSpeed * dt) else 0) +
    (if s.keyLtrigger then
      (if s.keyLeft then ShipControls.airAngularSpeed * dt
       else ShipControls.airAngularSpeed * 0.5 * dt) else 0) +
    (if s.keyRtrigger then
      -(if s.keyRight then ShipControls.airAngularSpeed * dt
        else ShipControls.airAngularSpeed * 0.5 * dt) else 0)
  else 0

/-- The left air-brake block of `update`: brake, blend drift toward
`airDrift`, add the drift-proportional lateral movement, and cut forward
movement while drifting outward. -/
def ShipControls.ltriggerStep (s : ShipControls) (dt : ℚ) : ShipControls :=
  let sA : ShipControls := { s with speed := s.speed - ShipControls.airBrake * dt }
  let sB : ShipControls :=
    { sA with drift := sA.drift + (ShipControls.airDrift - sA.drift) * ShipControls.driftLerp }
  let sC : ShipControls := { sB with movementX := sB.movementX + sB.speed * sB.drift * dt }
  if sC.drift > 0 then { sC with movementZ := sC.movementZ - sC.speed * sC.drift * dt } else sC

/-- The right air-brake block of `update`, the mirror image of
`ltriggerStep`. -/
def ShipControls.rtriggerStep (s : ShipControls) (dt : ℚ) : ShipControls :=
  let sA : ShipControls := { s with speed := s.speed - ShipControls.airBrake * dt }
  let sB : ShipControls :=
    { sA with drift := sA.drift + (-ShipControls.airDrift - sA.drift) * ShipControls.driftLerp }
  let sC : ShipControls := { sB with movementX := sB.movementX + sB.speed * sB.drift * dt }
  if sC.drift < 0 then { sC with movementZ := sC.movementZ + sC.speed * sC.drift * dt } else sC

/-- Application and decay of the pending repulsion force at the end of the
inline phase of `update`: a force below `epsilon` (squared length) is zeroed;
otherwise a nonzero z component cancels the forward movement, the force is
added to the movement, and it is lerped toward zero (twice as fast on slow
frames with `dt > 1.5`). -/
def ShipControls.repulsionStep (s : ShipControls) (dt : ℚ) : ShipControls :=
  if s.repulsionForceX ^ 2 + s.repulsionForceY ^ 2 + s.repulsionForceZ ^ 2 < ShipControls.epsilon then
    { s with repulsionForceX := 0, repulsionForceY := 0, repulsionForceZ := 0 }
  else
    let s9 : ShipControls := { s with movementZ := if s.repulsionForceZ ≠ 0 then 0 else s.movementZ }
    let s10 : ShipControls :=
      { s9 with movementX := s9.movementX + s9.repulsionForceX,
                movementY := s9.movementY + s9.repulsionForceY,
                movementZ := s9.movementZ + s9.repulsionForceZ }
    let l : ℚ := if dt > 1.5 then ShipControls.repulsionLerp * 2 else ShipControls.repulsionLerp
    { s10 with repulsionForceX := s10.repulsionForceX * (1 - l),
               repulsionForceY := s10.repulsionForceY * (1 - l),
               repulsionForceZ := s10.repulsionForceZ * (1 - l) }

set_option maxHeartbeats 1000000

/-- The inline part of `ShipControls.update(dt)` before the booster check:
drift/angular decay, keyboard steering and thrust, air brakes with drift
movement, angular integration, the speed clamp to `[0, maxSpeed]`, forward
movement, and application and decay of the pending repulsion force. The
keyboard is the active input source (the controller fields are `null` in the
source). `rollAmount` feeds only the mesh matrix and is dropped. -/
def ShipControls.updateInline (s : ShipControls) (dt : ℚ) : ShipControls :=
  let s0 : ShipControls :=
    { s with rotationY := 0, movementX := 0, movementY := 0, movementZ := 0,
             drift := s.drift + (0 - s.drift) * ShipControls.driftLerp,
             angular := s.angular + (0 - s.angular) * ShipControls.angularLerp * 0.5 }
  let s1 : ShipControls :=
    if s0.active then
      if s0.keyForward then { s0 with speed := s0.speed + ShipControls.thrust * dt }
      else { s0 with speed := s0.speed - ShipControls.airResist * dt }
    else s0
  let s2 : ShipControls := if s1.active ∧ s1.keyLtrigger then s1.ltriggerStep dt else s1
  let s3 : ShipControls := if s2.active ∧ s2.keyRtrigger then s2.rtriggerStep dt else s2
  let s4 : ShipControls :=
    { s3 with angular := s3.angular + (s.angularAmount dt - s3.angular) * ShipControls.angularLerp }
  let s5 : ShipControls := { s4 with rotationY := s4.angular }
  let s6 : ShipControls := { s5 with speed := max 0 (min s5.speed ShipControls.maxSpeed) }
  let s7 : ShipControls := { s6 with speedRatio := s6.speed / ShipControls.maxSpeed }
  let s8 : ShipControls := { s7 with movementZ := s7.movementZ + s7.speed * dt }
  s8.repulsionStep dt

/-- `ShipControls.update(dt)`: early return while falling, then the inline
phase, booster check, height check, collision check, and the shield-depletion
transition, in source order. Pose translation and the mesh visual transform
are external. -/
def ShipControls.update (s : ShipControls) (dt : ℚ) (env : TickEnv) : ShipControls :=
  if s.falling then s
  else
    let s1 := s.updateInline dt
    let s2 := s1.boosterCheck dt env
    let s3 := s2.heightCheck env
    let s4 := s3.collisionCheck dt env
    if s4.shield ≤ 0 then ShipControls.destroy { s4 with shield := 0 } else s4

/-- Run `update` with `dt = 1` over a list of per-tick environments. -/
def ShipControls.runTicks (s : ShipControls) (envs : List TickEnv) : ShipControls :=
  envs.foldl (fun st e => st.update 1 e) s

/-! ## RaceData (src/src/core/RaceData.ts) -/

/-- 3D position with rational components. -/
structure Vec3 where
  x : ℚ
  y : ℚ
  z : ℚ
deriving DecidableEq, Repr

/-- Quaternion with rational components. -/
structure Quat4 where
  x : ℚ
  y : ℚ
  z : ℚ
  w : ℚ
deriving DecidableEq, Repr

/-- `THREE.Vector3.lerpVectors(a, b, alpha)`: componentwise
`a + (b - a) * alpha`. -/
def lerpVectors (a b : Vec3) (alpha : ℚ) : Vec3 :=
  ⟨a.x + (b.x - a.x) * alpha, a.y + (b.y - a.y) * alpha, a.z + (b.z - a.z) * alpha⟩

/-- `THREE.Quaternion.slerpQuaternions(qa, qb, t)`: the early-out branches of
the library slerp are exact (`t = 0` yields `qa` and `t = 1` yields `qb`);
the transcendental interior branch is abstracted as the parameter `trig`. -/
def slerpQuaternions (trig : Quat4 → Quat4 → ℚ → Quat4) (qa qb : Quat4) (t : ℚ) : Quat4 :=
  if t = 0 then qa else if t = 1 then qb else trig qa qb t

/-- A recorded replay frame `[time, x, y, z, qx, qy, qz, qw]`. -/
structure Frame where
  t : ℚ
  px : ℚ
  py : ℚ
  pz : ℚ
  qx : ℚ
  qy : ℚ
  qz : ℚ
  qw : ℚ
deriving DecidableEq, Repr

/-- The position tuple of a frame. -/
def Frame.pos (f : Frame) : Vec3 :=
  ⟨f.px, f.py, f.pz⟩

/-- The quaternion tuple of a frame. -/
def Frame.quat (f : Frame) : Quat4 :=
  ⟨f.qx, f.qy, f.qz, f.qw⟩

/-- The mutable state of a `RaceData` instance: recorded frames, index of the
last frame, playback cursor, and the recording decimation counters. -/
structure RaceData where
  data : List Frame
  last : ℤ
  seek : ℤ
  rate : ℕ
  rateState : ℕ
deriving DecidableEq, Repr

/-- A freshly constructed `RaceData`: no frames, `last = -1`, cursor at 0,
recording every 2nd tick. -/
def RaceData.fresh : RaceData :=
  ⟨[], -1, 0, 2, 1⟩

/-- JavaScript indexing `data[i]`: `none` models `undefined`. -/
def RaceData.frameAt (s : RaceData) (i : ℤ) : Option Frame :=
  if i < 0 then none else s.data.get? i.toNat

/-- `RaceData.export()`: the frame sequence as stored. -/
def RaceData.exportData (s : RaceData) : List Frame :=
  s.data

/-- `RaceData.import(data)` (named `importData` here because `import` is a
Lean keyword): replace the frames and recompute `last`; the cursor is left
untouched by the source. -/
def RaceData.importData (s : RaceData) (d : List Frame) : RaceData :=
  { s with data := d, last := (d.length : ℤ) - 1 }

/-- The guard of the seek loop in `applyInterpolated`:
`seek < last && data[seek + 1][0] < time` (an out-of-range access makes the
comparison false, as `undefined < time` is false in JavaScript). -/
def RaceData.seekCond (s : RaceData) (time : ℚ) (seek : ℤ) : Bool :=
  seek < s.last &&
    (match s.frameAt (seek + 1) with
     | some f => decide (f.t < time)
     | none => false)

/-- The forward-only seek loop of `applyInterpolated`, with explicit fuel
(the loop advances at most `data.length` times). -/
def RaceData.seekLoop (s : RaceData) (time : ℚ) : ℕ → ℤ → ℤ
  | 0, seek => seek
  | fuel + 1, seek =>
    if s.seekCond time seek then s.seekLoop time fuel (seek + 1) else seek

/-- The observable effect of one `applyInterpolated` call: the bad-data
warning (no pose update), an uncaught `TypeError` from reading a field of
`undefined`, or a `teleport` of the ship to a pose. -/
inductive ApplyEffect where
  | warn : ApplyEffect
  | throwErr : ApplyEffect
  | teleport : Vec3 → Quat4 → ApplyEffect
deriving DecidableEq, Repr

/-- `RaceData.applyInterpolated(time)`: advance the cursor, warn on a
negative cursor, snap exactly to the frame at the cursor when it is the first
or last frame, and otherwise teleport to the lerped position and slerped
orientation between the bracketing frames with factor
`(time - prevTime) / (nextTime - prevTime)`. Reading a frame that does not
exist models the `TypeError` thrown by the source at `prev[1]`. -/
def RaceData.applyInterpolated (trig : Quat4 → Quat4 → ℚ → Quat4) (s : RaceData)
    (time : ℚ) : RaceData × ApplyEffect :=
  let seek1 := s.seekLoop time s.data.length s.seek
  let s1 : RaceData := { s with seek := seek1 }
  if seek1 < 0 then (s1, ApplyEffect.warn)
  else
    match s1.frameAt seek1 with
    | none => (s1, ApplyEffect.throwErr)
    | some prev =>
      if seek1 = s1.last ∨ seek1 = 0 then (s1, ApplyEffect.teleport prev.pos prev.quat)
      else
        match s1.frameAt (seek1 + 1) with
        | none => (s1, ApplyEffect.throwErr)
        | some next =>
          let tt := (time - prev.t) / (next.t - prev.t)
          (s1, ApplyEffect.teleport (lerpVectors prev.pos next.pos tt)
                 (slerpQuaternions trig prev.quat next.quat tt))

/-- A concrete stand-in for the transcendental slerp interior, used to
instantiate closed statements. -/
def trigFst : Quat4 → Quat4 → ℚ → Quat4 :=
  fun qa _ _ => qa

/-! ## Gameplay (src/src/core/Gameplay.ts)

The race-progress state of the `Gameplay` class in time-attack mode. The HUD,
the timer object and the replay recording feed other components and are
omitted; the elapsed time and the checkpoint-map pixel under the craft are
inputs of the per-tick function. -/

/-- Race-progress state owned by `Gameplay`. `result` uses the source enum
values: finish 1, destroyed 2, wrong way 3, replay 4, none -1. -/
structure Gameplay where
  previousCheckPoint : ℤ
  result : ℤ
  lap : ℕ
  lapTimes : List ℚ
  lapTimeElapsed : ℚ
  maxLaps : ℕ
  step : ℕ
  shipActive : Bool
  finishTime : Option ℚ
  trackStart : ℤ
  trackLast : ℤ
deriving DecidableEq, Repr

/-- `Gameplay.checkPoint()`: decode a checkpoint id from the analyser pixel
under the craft; yellow-keyed pixels (r = 255, g = 255, b < 250) carry the id
in the blue channel, anything else decodes to -1. -/
def Gameplay.checkPoint (px : PixelN) : ℤ :=
  if px.r = 255 ∧ px.g = 255 ∧ px.b < 250 then (px.b : ℤ) else -1

/-- `Gameplay.end(result)` (named `endRace` here because `end` is a Lean
keyword): store the final elapsed time, set the result, freeze ship input,
and enter the post-finish display step for finish or destruction. The
formatted score string is display-only and omitted. -/
def Gameplay.endRace (g : Gameplay) (elapsed : ℚ) (result : ℤ) : Gameplay :=
  { g with finishTime := some elapsed, result := result, shipActive := false,
           step := if result = 1 ∨ result = 2 then 100 else g.step }

/-- The race-progress part of `Gameplay.timeAttackMode()` for one tick:
decode the checkpoint under the craft; on a transition from the last
checkpoint to the start checkpoint finalize a lap time and either finish the
race (on the final lap) or advance the lap counter; on any other new
checkpoint just record it; then end the race as destroyed if the ship was
destroyed. Replay recording and HUD updates are omitted side channels. -/
def Gameplay.timeAttackMode (g : Gameplay) (elapsed : ℚ) (px : PixelN)
    (shipDestroyed : Bool) : Gameplay :=
  let cp := Gameplay.checkPoint px
  let g1 : Gameplay :=
    if cp = g.trackStart ∧ g.previousCheckPoint = g.trackLast then
      let g2 : Gameplay :=
        { g with previousCheckPoint := cp,
                 lapTimes := g.lapTimes ++ [elapsed - g.lapTimeElapsed],
                 lapTimeElapsed := elapsed }
      if g2.lap = g2.maxLaps then g2.endRace elapsed 1 else { g2 with lap := g2.lap + 1 }
    else if cp ≠ -1 ∧ cp ≠ g.previousCheckPoint then { g with previousCheckPoint := cp }
    else g
  if shipDestroyed then g1.endRace elapsed 2 else g1

/-- Run `timeAttackMode` over a list of ticks, each supplying the elapsed
time and the checkpoint pixel, with the ship never destroyed. -/
def Gameplay.runTimeAttack (g : Gameplay) (ticks : List (ℚ × PixelN)) : Gameplay :=
  ticks.foldl (fun st tk => st.timeAttackMode tk.1 tk.2 false) g

/-! ## Concrete instances used by closed statements -/

/-- A craft at rest immediately after `reset`, with collision detection on. -/
def shipRest : ShipControls :=
  { active := true, destroyed := false, falling := false,
    keyForward := false, keyLeft := false, keyRight := false,
    keyLtrigger := false, keyRtrigger := false,
    speed := 0, speedRatio := 0, boost := 0, shield := 1, drift := 0,
    angular := 0, rotationY := 0,
    movementX := 0, movementY := 0, movementZ := 0,
    repulsionForceX := 0, repulsionForceY := 0, repulsionForceZ := 0,
    repulsionAmount := 0,
    collisionFront := false, collisionLeft := false, collisionRight := false,
    shieldDelay := 60, collisionDetection := true, heightBias := 0 }

/-- A craft in a wall-collision tick at speed 5. -/
def c2Ship : ShipControls :=
  { shipRest with speed := 5 }

/-- A tick whose collision-map reads are: bilinear red 100 under the craft
(a wall), left probe red 200, right probe red 50, forward probe red 200. -/
def c2Env : TickEnv :=
  ⟨none, some ⟨100, 0, 0, 255, 200, 50, 200⟩, none⟩

/-- A tick whose height-map sample is the packed code 20000 with the craft at
height 0. -/
def c5Env : TickEnv :=
  ⟨none, none, some ⟨0, 20000⟩⟩

/-- A tick whose height-map sample is the packed code 17000000 (the
specification's sentinel example) with the craft at height 0. -/
def c5SentinelEnv : TickEnv :=
  ⟨none, none, some ⟨0, 17000000⟩⟩

/-- A quiet tick: no map reads at all. -/
def quietEnv : TickEnv :=
  ⟨none, none, none⟩

/-- Three recorded frames at times 0, 10, 20 with distinct positions. -/
def framesCex : List Frame :=
  [⟨0, 0, 0, 0, 0, 0, 0, 1⟩, ⟨10, 1, 0, 0, 0, 0, 0, 1⟩, ⟨20, 2, 0, 0, 0, 0, 0, 1⟩]

/-- Four recorded frames at times 0, 10, 20, 30 with distinct positions. -/
def framesW : List Frame :=
  [⟨0, 0, 0, 0, 0, 0, 0, 1⟩, ⟨10, 1, 0, 0, 0, 0, 0, 1⟩,
   ⟨20, 2, 0, 0, 0, 0, 0, 1⟩, ⟨30, 3, 0, 0, 0, 0, 0, 1⟩]

/-- A yellow-keyed checkpoint pixel with id `b`. -/
def cpPixel (b : ℕ) : PixelN :=
  ⟨255, 255, b, 255⟩

/-- Race progress right after the countdown of `Gameplay.start` on a track
whose start checkpoint id is 0 and last checkpoint id is 2. -/
def gameStart : Gameplay :=
  { previousCheckPoint := 0, result := -1, lap := 1, lapTimes := [],
    lapTimeElapsed := 0, maxLaps := 3, step := 4, shipActive := true,
    finishTime := none, trackStart := 0, trackLast := 2 }

/-! ## Theorems -/

/-- Evaluation helper: `getD` of a byte buffer stays within byte range. -/
lemma listGetD_le_255 (l : List ℕ) (h : ∀ v ∈ l, v ≤ 255) (n : ℕ) :
    l.getD n 0 ≤ 255 := by
  rw [List.getD_eq_getElem?_getD]
  rw [← List.get?_eq_getElem?]
  rcases hv : l.get? n with _ | v
  · simp
  · have := h v (List.get?_mem hv)
    simpa using this

/-- All channels of a point sample of a well-formed field are byte-valued. -/
lemma ImageData.getPixel_le_255 (img : ImageData) (h : img.WF) (x y : ℤ) :
    (img.getPixel x y).r ≤ 255 ∧ (img.getPixel x y).g ≤ 255 ∧
    (img.getPixel x y).b ≤ 255 ∧ (img.getPixel x y).a ≤ 255 := by
  unfold ImageData.getPixel
  split
  · simp
  · refine ⟨?_, ?_, ?_, ?_⟩ <;> exact listGetD_le_255 img.data h _

/-- Distance of the bilinear blend from its base value, bounded by the
neighbor weights times the byte range. -/
lemma bilinearChannel_dist (c cx cy cxy ax ay : ℚ)
    (hc0 : 0 ≤ c) (hc : c ≤ 255) (hcx0 : 0 ≤ cx) (hcx : cx ≤ 255)
    (hcy0 : 0 ≤ cy) (hcy : cy ≤ 255) (hcxy0 : 0 ≤ cxy) (hcxy : cxy ≤ 255)
    (hax0 : 0 ≤ ax) (hax : ax ≤ 1) (hay0 : 0 ≤ ay) (hay : ay ≤ 1) :
    |bilinearChannel c cx cy cxy ax ay - c| ≤ (ax + ay) * 255 := by
  have hkey : bilinearChannel c cx cy cxy ax ay - c =
      (1 - ay) * ax * (cx - c) + ay * (1 - ax) * (cy - c) + ay * ax * (cxy - c) := by
    unfold bilinearChannel; ring
  rw [hkey, abs_le]
  constructor <;> nlinarith [mul_nonneg hax0 hay0, mul_nonneg hax0 hc0,
    mul_nonneg hay0 hc0, mul_nonneg (mul_nonneg hax0 hay0) hc0,
    mul_nonneg hax0 hcx0, mul_nonneg hay0 hcy0,
    mul_nonneg (mul_nonneg hax0 hay0) hcxy0,
    mul_nonneg hax0 (sub_nonneg.mpr hcx), mul_nonneg hay0 (sub_nonneg.mpr hcy),
    mul_nonneg (mul_nonneg hax0 hay0) (sub_nonneg.mpr hcxy)]

/-- Bilinear sampling at an exact half-pixel center reduces to the point
sample of the base pixel, with no hypotheses at all: the neighbor weights
vanish identically there. -/
lemma ImageData.getPixelBilinear_half (img : ImageData) (x y : ℤ) :
    img.getPixelBilinear ((x : ℚ) + 0.5) ((y : ℚ) + 0.5) =
      ⟨((img.getPixel x y).r : ℚ), ((img.getPixel x y).g : ℚ),
        ((img.getPixel x y).b : ℚ), ((img.getPixel x y).a : ℚ)⟩ := by
  have hfx : ⌊(x : ℚ) + 0.5⌋ = x := by
    rw [Int.floor_eq_iff]
    constructor <;> norm_num
  have hfy : ⌊(y : ℚ) + 0.5⌋ = y := by
    rw [Int.floor_eq_iff]
    constructor <;> norm_num
  have hrx : (x : ℚ) + 0.5 - (x : ℤ) - 0.5 = 0 := by ring
  simp only [ImageData.getPixelBilinear, hfx, hfy, hrx]
  norm_num [bilinearChannel]

/-- C10: for every loaded pixel field and in-bounds integer coordinates,
bilinear sampling at the exact half-pixel center returns exactly the point
sample of that pixel on all four channels; the neighbor weights vanish, so
this holds even when the chosen neighbors are out of bounds. -/
theorem ImageData.bilinear_at_pixel_centers (img : ImageData) (x y : ℤ)
    (hl : img.loaded = true) (hx0 : 0 ≤ x) (hx : x < (img.width : ℤ))
    (hy0 : 0 ≤ y) (hy : y < (img.height : ℤ)) :
    img.getPixelBilinear ((x : ℚ) + 0.5) ((y : ℚ) + 0.5) =
      ⟨((img.getPixel x y).r : ℚ), ((img.getPixel x y).g : ℚ),
        ((img.getPixel x y).b : ℚ), ((img.getPixel x y).a : ℚ)⟩ :=
  img.getPixelBilinear_half x y

/-- Witness: pixel (0,0) of the demo field. -/
theorem ImageData.bilinear_at_pixel_centers_witness :
    demoImg.getPixelBilinear (((0 : ℤ) : ℚ) + 0.5) (((0 : ℤ) : ℚ) + 0.5) =
      ⟨((demoImg.getPixel 0 0).r : ℚ), ((demoImg.getPixel 0 0).g : ℚ),
        ((demoImg.getPixel 0 0).b : ℚ), ((demoImg.getPixel 0 0).a : ℚ)⟩ :=
  ImageData.bilinear_at_pixel_centers demoImg 0 0 rfl (by decide) (by decide)
    (by decide) (by decide)

/-- C9 (amended): bilinear sampling converges to the point sample of the base
pixel as the fractional offsets approach 0.5 on both axes (the half-pixel
center), not as they approach 0 or 1. Stated with the explicit convergence
modulus: for offsets within `min (1/2) (eps/1021)` of the half-pixel center
on each axis, every channel of the bilinear sample is within `eps` of the
point sample. -/
theorem ImageData.bilinear_converges_at_half_centers (img : ImageData) (hwf : img.WF)
    (x y : ℤ) (eps u v : ℚ) (heps : 0 < eps)
    (hu : |u| < min (1/2) (eps/1021)) (hv : |v| < min (1/2) (eps/1021)) :
    |(img.getPixelBilinear ((x : ℚ) + 0.5 + u) ((y : ℚ) + 0.5 + v)).r - ((img.getPixel x y).r : ℚ)| < eps ∧
    |(img.getPixelBilinear ((x : ℚ) + 0.5 + u) ((y : ℚ) + 0.5 + v)).g - ((img.getPixel x y).g : ℚ)| < eps ∧
    |(img.getPixelBilinear ((x : ℚ) + 0.5 + u) ((y : ℚ) + 0.5 + v)).b - ((img.getPixel x y).b : ℚ)| < eps ∧
    |(img.getPixelBilinear ((x : ℚ) + 0.5 + u) ((y : ℚ) + 0.5 + v)).a - ((img.getPixel x y).a : ℚ)| < eps := by
  have hu2 : |u| < 1/2 := lt_of_lt_of_le hu (min_le_left _ _)
  have hv2 : |v| < 1/2 := lt_of_lt_of_le hv (min_le_left _ _)
  have hue : |u| < eps/1021 := lt_of_lt_of_le hu (min_le_right _ _)
  have hve : |v| < eps/1021 := lt_of_lt_of_le hv (min_le_right _ _)
  obtain ⟨hua, hub⟩ := abs_lt.mp hu2
  obtain ⟨hva, hvb⟩ := abs_lt.mp hv2
  have hfx : ⌊(x : ℚ) + 0.5 + u⌋ = x := by
    rw [Int.floor_eq_iff]
    constructor
    · linarith
    · linarith
  have hfy : ⌊(y : ℚ) + 0.5 + v⌋ = y := by
    rw [Int.floor_eq_iff]
    constructor
    · linarith
    · linarith
  have hrx : (x : ℚ) + 0.5 + u - (x : ℤ) - 0.5 = u := by ring
  have hry : (y : ℚ) + 0.5 + v - (y : ℤ) - 0.5 = v := by ring
  simp only [ImageData.getPixelBilinear, hfx, hfy, hrx, hry]
  have hb1 := img.getPixel_le_255 hwf x y
  have hb2 := img.getPixel_le_255 hwf (x + if u < 0 then -1 else 1) y
  have hb3 := img.getPixel_le_255 hwf x (y + if v < 0 then -1 else 1)
  have hb4 := img.getPixel_le_255 hwf (x + if u < 0 then -1 else 1) (y + if v < 0 then -1 else 1)
  have hfin : (|u| + |v|) * 255 < eps := by
    have h1 : 0 ≤ |u| := abs_nonneg u
    have h2 : 0 ≤ |v| := abs_nonneg v
    nlinarith
  have hax0 : 0 ≤ |u| := abs_nonneg u
  have hay0 : 0 ≤ |v| := abs_nonneg v
  have hax1 : |u| ≤ 1 := by linarith
  have hay1 : |v| ≤ 1 := by linarith
  refine ⟨?_, ?_, ?_, ?_⟩
  · refine lt_of_le_of_lt (bilinearChannel_dist _ _ _ _ _ _ ?_ ?_ ?_ ?_ ?_ ?_ ?_ ?_ hax0 hax1 hay0 hay1) hfin
    · positivity
    · exact_mod_cast hb1.1
    · positivity
    · exact_mod_cast hb2.1
    · positivity
    · exact_mod_cast hb3.1
    · positivity
    · exact_mod_cast hb4.1
  · refine lt_of_le_of_lt (bilinearChannel_dist _ _ _ _ _ _ ?_ ?_ ?_ ?_ ?_ ?_ ?_ ?_ hax0 hax1 hay0 hay1) hfin
    · positivity
    · exact_mod_cast hb1.2.1
    · positivity
    · exact_mod_cast hb2.2.1
    · positivity
    · exact_mod_cast hb3.2.1
    · positivity
    · exact_mod_cast hb4.2.1
  · refine lt_of_le_of_lt (bilinearChannel_dist _ _ _ _ _ _ ?_ ?_ ?_ ?_ ?_ ?_ ?_ ?_ hax0 hax1 hay0 hay1) hfin
    · positivity
    · exact_mod_cast hb1.2.2.1
    · positivity
    · exact_mod_cast hb2.2.2.1
    · positivity
    · exact_mod_cast hb3.2.2.1
    · positivity
    · exact_mod_cast hb4.2.2.1
  · refine lt_of_le_of_lt (bilinearChannel_dist _ _ _ _ _ _ ?_ ?_ ?_ ?_ ?_ ?_ ?_ ?_ hax0 hax1 hay0 hay1) hfin
    · positivity
    · exact_mod_cast hb1.2.2.2
    · positivity
    · exact_mod_cast hb2.2.2.2
    · positivity
    · exact_mod_cast hb3.2.2.2
    · positivity
    · exact_mod_cast hb4.2.2.2

/-- The demo field's buffer is byte-valued. -/
lemma demoImg_wf : demoImg.WF := by
  intro v hv
  simp [demoImg] at hv
  omega

/-- Witness: at offsets `1/10000` from the half-pixel center of pixel (0,0)
of the demo field, the bilinear red channel is within 1 of the point sample. -/
theorem ImageData.bilinear_converges_at_half_centers_witness :
    |(demoImg.getPixelBilinear (((0 : ℤ) : ℚ) + 0.5 + 1/10000) (((0 : ℤ) : ℚ) + 0.5 + 1/10000)).r -
      ((demoImg.getPixel 0 0).r : ℚ)| < 1 :=
  (ImageData.bilinear_converges_at_half_centers demoImg demoImg_wf 0 0 1 (1/10000) (1/10000)
    (by norm_num)
    (by rw [abs_of_pos (by norm_num : (0:ℚ) < 1/10000), lt_min_iff]
        constructor <;> norm_num)
    (by rw [abs_of_pos (by norm_num : (0:ℚ) < 1/10000), lt_min_iff]
        constructor <;> norm_num)).1

/-- C9 counterexample: the convergence claimed at fractional offsets 0 and 1
fails. In the demo field, approaching pixel (1,0) with offsets tending to 0
on both axes, the bilinear red channel tends to 25 (the neighbor weights tend
to 1/2 and the left neighbor has red 100), while the point sample is 0. -/
theorem ImageData.bilinear_offset_convergence_cex : ¬ bilinearConvergesAtIntegerOffsets := by
  intro h
  obtain ⟨h0, -⟩ := h demoImg rfl 1 0 (by decide) (by decide) (by decide) (by decide)
  obtain ⟨del, hdel, hcl⟩ := h0 10 (by norm_num)
  have hu0 : 0 < min (del/2) (1/8 : ℚ) := lt_min (by linarith) (by norm_num)
  have hud : min (del/2) (1/8 : ℚ) < del := lt_of_le_of_lt (min_le_left _ _) (by linarith)
  set u := min (del/2) (1/8 : ℚ) with hudef
  have hu8 : u ≤ 1/8 := min_le_right _ _
  have hkey := hcl u hu0 hud
  have hfx : ⌊((1 : ℤ) : ℚ) + u⌋ = 1 := by
    rw [Int.floor_eq_iff]
    constructor
    · push_cast
      linarith
    · push_cast
      linarith
  have hfy : ⌊((0 : ℤ) : ℚ) + u⌋ = 0 := by
    rw [Int.floor_eq_iff]
    constructor
    · push_cast
      linarith
    · push_cast
      linarith
  have hrx : ((1 : ℤ) : ℚ) + u - ((1 : ℤ) : ℚ) - 0.5 = u - 0.5 := by ring
  have hry : ((0 : ℤ) : ℚ) + u - ((0 : ℤ) : ℚ) - 0.5 = u - 0.5 := by ring
  simp only [ImageData.getPixelBilinear, hfx, hfy, hrx, hry] at hkey
  have hneg : u - 0.5 < 0 := by linarith
  rw [if_pos hneg] at hkey
  rw [abs_of_neg hneg] at hkey
  have hp1 : demoImg.getPixel 1 0 = ⟨0, 0, 0, 0⟩ := by decide
  have hp2 : demoImg.getPixel (1 + -1) 0 = ⟨100, 0, 0, 0⟩ := by decide
  have hp3 : demoImg.getPixel 1 (0 + -1) = ⟨0, 0, 0, 0⟩ := by decide
  have hp4 : demoImg.getPixel (1 + -1) (0 + -1) = ⟨0, 0, 0, 0⟩ := by decide
  rw [hp1, hp2, hp3, hp4] at hkey
  have hval : bilinearChannel ((0 : ℕ) : ℚ) ((100 : ℕ) : ℚ) ((0 : ℕ) : ℚ) ((0 : ℕ) : ℚ)
      (-(u - 0.5)) (-(u - 0.5)) - ((0 : ℕ) : ℚ) = 25 - 100 * u ^ 2 := by
    unfold bilinearChannel
    push_cast
    ring
  rw [hval] at hkey
  rw [abs_of_pos (by nlinarith)] at hkey
  nlinarith

/-- The seek loop reaches the first index from its start at which its guard
fails, given enough fuel. -/
lemma RaceData.seekLoop_eq (s : RaceData) (time : ℚ) :
    ∀ (fuel : ℕ) (a b : ℤ), a ≤ b → (b - a).toNat ≤ fuel →
      (∀ k : ℤ, a ≤ k → k < b → s.seekCond time k = true) →
      s.seekCond time b = false →
      s.seekLoop time fuel a = b := by
  intro fuel
  induction fuel with
  | zero =>
    intro a b hab hf _ _
    have : a = b := by omega
    subst this
    rfl
  | succ n ih =>
    intro a b hab hf hall hb
    rcases eq_or_lt_of_le hab with heq | hlt
    · subst heq
      simp [RaceData.seekLoop, hb]
    · have hca : s.seekCond time a = true := hall a le_rfl hlt
      simp only [RaceData.seekLoop, hca, if_true]
      exact ih (a + 1) b (by omega) (by omega) (fun k hk1 hk2 => hall k (by omega) hk2) hb

/-- C3 (code bug): on an empty or freshly cleared log the cursor is 0 and the
`last` index is -1, so the negative-cursor guard (the only bad-data guard in
the source) does not fire, and the source then reads `this.data[0]` of an
empty array and throws a `TypeError` at `prev[1]` instead of warning and
returning: `applyInterpolated` does throw on a corrupt/empty log. -/
theorem RaceData.applyInterpolated_empty_throws :
    (RaceData.fresh.applyInterpolated trigFst 100).2 = ApplyEffect.throwErr ∧
    RaceData.fresh.seek = 0 ∧ RaceData.fresh.last = -1 ∧ ¬ RaceData.fresh.seek < 0 := by
  refine ⟨rfl, rfl, rfl, by decide⟩

/-- C4 counterexample: with three recorded frames at times 0, 10, 20 and
distinct positions, querying exactly at the second frame's recorded timestamp
(10) makes the cursor stop at 0, where the boundary policy snaps to frame 0's
pose; the recorded pose at time 10 (position (1,0,0)) is not reproduced. -/
theorem RaceData.applyInterpolated_recorded_timestamp_cex :
    ((RaceData.fresh.importData framesCex).applyInterpolated trigFst 10).2 =
      ApplyEffect.teleport ⟨0, 0, 0⟩ ⟨0, 0, 0, 1⟩ ∧
    (⟨0, 0, 0⟩ : Vec3) ≠ ⟨1, 0, 0⟩ := by
  refine ⟨by decide, by decide⟩

/-- Evaluation of `applyInterpolated` in the boundary-snap case: the cursor
lands on the first or last frame and the pose snaps to it exactly. -/
lemma RaceData.applyInterpolated_snap (trig : Quat4 → Quat4 → ℚ → Quat4) (s : RaceData)
    (time : ℚ) (j : ℤ) (f : Frame)
    (hloop : s.seekLoop time s.data.length s.seek = j) (hj0 : 0 ≤ j)
    (hf : s.data.get? j.toNat = some f) (hbound : j = s.last ∨ j = 0) :
    (s.applyInterpolated trig time).2 = ApplyEffect.teleport f.pos f.quat := by
  simp only [RaceData.applyInterpolated, RaceData.frameAt, hloop]
  rw [if_neg (by omega : ¬ j < 0)]
  rw [if_neg (by omega : ¬ j < 0), hf]
  simp only [if_pos hbound]

/-- Evaluation of `applyInterpolated` in the interpolation case: the cursor
lands strictly between the first and last frames and the pose is lerped and
slerped between the bracketing frames. -/
lemma RaceData.applyInterpolated_interp (trig : Quat4 → Quat4 → ℚ → Quat4) (s : RaceData)
    (time : ℚ) (j : ℤ) (fp fn : Frame)
    (hloop : s.seekLoop time s.data.length s.seek = j) (hj0 : 0 ≤ j)
    (hfp : s.data.get? j.toNat = some fp) (hfn : s.data.get? (j + 1).toNat = some fn)
    (hnb : ¬ (j = s.last ∨ j = 0)) :
    (s.applyInterpolated trig time).2 =
      ApplyEffect.teleport (lerpVectors fp.pos fn.pos ((time - fp.t) / (fn.t - fp.t)))
        (slerpQuaternions trig fp.quat fn.quat ((time - fp.t) / (fn.t - fp.t))) := by
  simp only [RaceData.applyInterpolated, RaceData.frameAt, hloop]
  rw [if_neg (by omega : ¬ j < 0)]
  rw [hfp]
  simp only [if_neg hnb]
  rw [if_neg (by omega : ¬ j + 1 < 0), hfn]
  rw [if_neg (by omega : ¬ j < 0)]

/-- Lerp at factor 1 lands exactly on the second vector. -/
lemma lerpVectors_one (a b : Vec3) : lerpVectors a b 1 = b := by
  cases a
  cases b
  simp only [lerpVectors, Vec3.mk.injEq]
  exact ⟨by ring, by ring, by ring⟩

/-- The library slerp early-out at factor 1 lands exactly on the second
quaternion. -/
lemma slerpQuaternions_one (trig : Quat4 → Quat4 → ℚ → Quat4) (a b : Quat4) :
    slerpQuaternions trig a b 1 = b := by
  unfold slerpQuaternions
  norm_num

/-- The seek-loop guard is false when the next frame exists but is not
strictly earlier than the query time. -/
lemma RaceData.seekCond_false_of_ge (s : RaceData) (time : ℚ) (k : ℤ) (f : Frame)
    (hf : s.frameAt (k + 1) = some f) (hge : ¬ f.t < time) :
    s.seekCond time k = false := by
  unfold RaceData.seekCond
  rw [hf]
  simp [hge]

/-- The seek-loop guard is false at or beyond the last frame. -/
lemma RaceData.seekCond_false_of_last (s : RaceData) (time : ℚ) (k : ℤ)
    (h : ¬ k < s.last) : s.seekCond time k = false := by
  unfold RaceData.seekCond
  simp [h]

/-- The seek-loop guard is true strictly before the last frame while the next
frame is strictly earlier than the query time. -/
lemma RaceData.seekCond_true (s : RaceData) (time : ℚ) (k : ℤ) (f : Frame)
    (hkl : k < s.last) (hf : s.frameAt (k + 1) = some f) (hlt : f.t < time) :
    s.seekCond time k = true := by
  unfold RaceData.seekCond
  rw [hf]
  simp [hkl, hlt]

/-- Frame access of a freshly imported log is plain list indexing. -/
lemma RaceData.frameAt_importData (frames : List Frame) (k : ℤ) (hk : 0 ≤ k) :
    (RaceData.fresh.importData frames).frameAt k = frames.get? k.toNat := by
  unfold RaceData.frameAt RaceData.importData RaceData.fresh
  rw [if_neg (by omega)]

/-- C4 (amended): after `export()` and `import()` into a fresh `RaceData`,
the frame list is reproduced verbatim and the `last` index is recomputed
(the cursor keeps its prior value, 0 on a fresh instance). `applyInterpolated`
then reproduces the recorded pose exactly at the first recorded timestamp and
at the timestamps of frames 2, 3, ... (where the cursor lands strictly inside
the sequence and the interpolation factor is exactly 1), and for query times
strictly inside any interval from frame j >= 1 on it teleports to the lerped
position and slerped orientation with factor
`(time - prevTime) / (nextTime - prevTime)`. At the second frame's timestamp
and strictly inside the first interval the cursor stays at 0 and the boundary
policy snaps to frame 0 instead (see the counterexample). -/
theorem RaceData.replay_roundtrip (trig : Quat4 → Quat4 → ℚ → Quat4) (frames : List Frame)
    (hsorted : ∀ (i j : ℕ) (fi fj : Frame), i < j →
      frames.get? i = some fi → frames.get? j = some fj → fi.t < fj.t) :
    ((RaceData.fresh.importData frames).exportData = frames ∧
     (RaceData.fresh.importData frames).last = (frames.length : ℤ) - 1 ∧
     (RaceData.fresh.importData frames).seek = 0) ∧
    (∀ f0 : Frame, frames.get? 0 = some f0 →
      ((RaceData.fresh.importData frames).applyInterpolated trig f0.t).2 =
        ApplyEffect.teleport f0.pos f0.quat) ∧
    (∀ (i : ℕ) (fi : Frame), 2 ≤ i → frames.get? i = some fi →
      ((RaceData.fresh.importData frames).applyInterpolated trig fi.t).2 =
        ApplyEffect.teleport fi.pos fi.quat) ∧
    (∀ (j : ℕ) (fj fk : Frame) (time : ℚ), 1 ≤ j → frames.get? j = some fj →
      frames.get? (j + 1) = some fk → fj.t < time → time < fk.t →
      ((RaceData.fresh.importData frames).applyInterpolated trig time).2 =
        ApplyEffect.teleport (lerpVectors fj.pos fk.pos ((time - fj.t) / (fk.t - fj.t)))
          (slerpQuaternions trig fj.quat fk.quat ((time - fj.t) / (fk.t - fj.t)))) := by
  have hlen : ∀ {n : ℕ} {f : Frame}, frames.get? n = some f → n < frames.length := by
    intro n f h
    by_contra hn
    rw [List.get?_eq_none.mpr (by omega)] at h
    cases h
  have hget : ∀ n : ℕ, n < frames.length → ∃ f, frames.get? n = some f := by
    intro n hn
    cases hg : frames.get? n with
    | none =>
      rw [List.get?_eq_none] at hg
      omega
    | some f => exact ⟨f, rfl⟩
  have hseek : (RaceData.fresh.importData frames).seek = 0 := rfl
  have hlast : (RaceData.fresh.importData frames).last = (frames.length : ℤ) - 1 := rfl
  have hdlen : (RaceData.fresh.importData frames).data.length = frames.length := rfl
  refine ⟨⟨rfl, rfl, rfl⟩, ?_, ?_, ?_⟩
  · -- query exactly at the first recorded timestamp
    intro f0 hf0
    have hl0 := hlen hf0
    have hcond0 : (RaceData.fresh.importData frames).seekCond f0.t 0 = false := by
      by_cases hl1 : frames.length ≤ 1
      · apply RaceData.seekCond_false_of_last
        rw [hlast]
        omega
      · obtain ⟨f1, hf1⟩ := hget 1 (by omega)
        apply RaceData.seekCond_false_of_ge _ _ _ f1
        · rw [RaceData.frameAt_importData frames _ (by omega)]
          exact hf1
        · exact lt_asymm (hsorted 0 1 f0 f1 (by omega) hf0 hf1)
    have hloop : (RaceData.fresh.importData frames).seekLoop f0.t
        (RaceData.fresh.importData frames).data.length
        (RaceData.fresh.importData frames).seek = 0 := by
      apply RaceData.seekLoop_eq _ _ _ _ _ (by rw [hseek]) (by rw [hseek]; simp)
        (fun k hk1 hk2 => by rw [hseek] at hk1; omega) hcond0
    exact RaceData.applyInterpolated_snap trig _ f0.t 0 f0 hloop le_rfl hf0 (Or.inr rfl)
  · -- query exactly at the timestamp of frame i with 2 <= i
    intro i fi h2i hfi
    have hil := hlen hfi
    obtain ⟨fp, hfp⟩ := hget (i - 1) (by omega)
    have hloop : (RaceData.fresh.importData frames).seekLoop fi.t
        (RaceData.fresh.importData frames).data.length
        (RaceData.fresh.importData frames).seek = (i : ℤ) - 1 := by
      apply RaceData.seekLoop_eq _ _ _ _ _ (by rw [hseek]; omega) (by rw [hseek, hdlen]; omega)
        ?hall ?hb
      case hall =>
        intro k hk1 hk2
        rw [hseek] at hk1
        obtain ⟨fk1, hfk1⟩ := hget (k + 1).toNat (by omega)
        apply RaceData.seekCond_true _ _ _ fk1
        · rw [hlast]
          omega
        · rw [RaceData.frameAt_importData frames _ (by omega)]
          exact hfk1
        · exact hsorted (k + 1).toNat i fk1 fi (by omega) hfk1 hfi
      case hb =>
        apply RaceData.seekCond_false_of_ge _ _ _ fi
        · rw [RaceData.frameAt_importData frames _ (by omega)]
          rw [show ((i : ℤ) - 1 + 1).toNat = i by omega]
          exact hfi
        · exact lt_irrefl fi.t
    have hres := RaceData.applyInterpolated_interp trig _ fi.t ((i : ℤ) - 1) fp fi hloop
      (by omega)
      (by rw [show ((i : ℤ) - 1).toNat = i - 1 by omega]; exact hfp)
      (by rw [show ((i : ℤ) - 1 + 1).toNat = i by omega]; exact hfi)
      (by rw [hlast]; omega)
    rw [hres]
    have hne : fi.t - fp.t ≠ 0 :=
      ne_of_gt (by linarith [hsorted (i - 1) i fp fi (by omega) hfp hfi])
    rw [div_self hne, lerpVectors_one, slerpQuaternions_one]
  · -- query strictly between frames j and j+1 with 1 <= j
    intro j fj fk time h1j hfj hfk hjt htk
    have hjl := hlen hfk
    have hloop : (RaceData.fresh.importData frames).seekLoop time
        (RaceData.fresh.importData frames).data.length
        (RaceData.fresh.importData frames).seek = (j : ℤ) := by
      apply RaceData.seekLoop_eq _ _ _ _ _ (by rw [hseek]; omega) (by rw [hseek, hdlen]; omega)
        ?hall ?hb
      case hall =>
        intro k hk1 hk2
        rw [hseek] at hk1
        obtain ⟨fk1, hfk1⟩ := hget (k + 1).toNat (by omega)
        apply RaceData.seekCond_true _ _ _ fk1
        · rw [hlast]
          omega
        · rw [RaceData.frameAt_importData frames _ (by omega)]
          exact hfk1
        · rcases Nat.lt_or_ge (k + 1).toNat j with hlt | hge
          · exact lt_trans (hsorted _ j fk1 fj hlt hfk1 hfj) hjt
          · have hkj : (k + 1).toNat = j := by omega
            rw [hkj, hfj] at hfk1
            injection hfk1 with he
            rw [← he]
            exact hjt
      case hb =>
        apply RaceData.seekCond_false_of_ge _ _ _ fk
        · rw [RaceData.frameAt_importData frames _ (by omega)]
          rw [show ((j : ℤ) + 1).toNat = j + 1 by omega]
          exact hfk
        · exact lt_asymm htk
    exact RaceData.applyInterpolated_interp trig _ time (j : ℤ) fj fk hloop (by omega)
      (by rw [show ((j : ℤ)).toNat = j by omega]; exact hfj)
      (by rw [show ((j : ℤ) + 1).toNat = j + 1 by omega]; exact hfk)
      (by rw [hlast]; omega)

/-- Witness: replaying the imported four-frame log at the third frame's
recorded timestamp (20) reproduces its recorded pose exactly. -/
theorem RaceData.replay_roundtrip_witness :
    ((RaceData.fresh.importData framesW).applyInterpolated trigFst 20).2 =
      ApplyEffect.teleport ⟨2, 0, 0⟩ ⟨0, 0, 0, 1⟩ := by
  have hsorted : ∀ (i j : ℕ) (fi fj : Frame), i < j →
      framesW.get? i = some fi → framesW.get? j = some fj → fi.t < fj.t := by
    intro i j fi fj hij hfi hfj
    have hj : j < framesW.length := by
      by_contra h
      rw [List.get?_eq_none.mpr (by omega)] at hfj
      cases hfj
    have hj4 : j < 4 := by simpa [framesW] using hj
    interval_cases j <;> interval_cases i <;> simp_all [framesW] <;>
      (subst hfi; subst hfj; norm_num)
  exact (RaceData.replay_roundtrip trigFst framesW hsorted).2.2.1 2
    ⟨20, 2, 0, 0, 0, 0, 0, 1⟩ (by omega) (by decide)

/-- C6: crossing the start checkpoint coming from the last checkpoint while
on lap 3 of 3 ends the race: result becomes finished (1), ship input is
frozen, the post-finish display step is entered, and the lap counter stays at
3 rather than incrementing to 4. -/
theorem Gameplay.final_lap_finish (g : Gameplay) (elapsed : ℚ) (px : PixelN)
    (hlap : g.lap = 3) (hmax : g.maxLaps = 3)
    (hcp : Gameplay.checkPoint px = g.trackStart)
    (hprev : g.previousCheckPoint = g.trackLast) :
    (g.timeAttackMode elapsed px false).result = 1 ∧
    (g.timeAttackMode elapsed px false).shipActive = false ∧
    (g.timeAttackMode elapsed px false).step = 100 ∧
    (g.timeAttackMode elapsed px false).lap = 3 := by
  simp [Gameplay.timeAttackMode, Gameplay.endRace, hcp, hprev, hlap, hmax]

/-- Witness: a concrete final-lap crossing. -/
theorem Gameplay.final_lap_finish_witness :
    (({ gameStart with lap := 3, previousCheckPoint := 2 } : Gameplay).timeAttackMode
        240000 (cpPixel 0) false).result = 1 ∧
    (({ gameStart with lap := 3, previousCheckPoint := 2 } : Gameplay).timeAttackMode
        240000 (cpPixel 0) false).shipActive = false ∧
    (({ gameStart with lap := 3, previousCheckPoint := 2 } : Gameplay).timeAttackMode
        240000 (cpPixel 0) false).step = 100 ∧
    (({ gameStart with lap := 3, previousCheckPoint := 2 } : Gameplay).timeAttackMode
        240000 (cpPixel 0) false).lap = 3 :=
  Gameplay.final_lap_finish _ 240000 (cpPixel 0) rfl rfl (by decide) rfl

/-- C7: the lap counter changes only on a transition from the track's last
checkpoint id to its start id (and only by +1 when the race is not on its
final lap), and on the decoded checkpoint pixel sequence [start, 1, 2, start]
with last = 2 the counter goes 1 to 2 with a positive lap time appended. -/
theorem Gameplay.lap_increment :
    (∀ (g : Gameplay) (elapsed : ℚ) (px : PixelN),
      ¬ (Gameplay.checkPoint px = g.trackStart ∧ g.previousCheckPoint = g.trackLast) →
      (g.timeAttackMode elapsed px false).lap = g.lap) ∧
    (∀ (g : Gameplay) (elapsed : ℚ) (px : PixelN),
      Gameplay.checkPoint px = g.trackStart → g.previousCheckPoint = g.trackLast →
      g.lap ≠ g.maxLaps →
      (g.timeAttackMode elapsed px false).lap = g.lap + 1 ∧
      (g.timeAttackMode elapsed px false).lapTimes = g.lapTimes ++ [elapsed - g.lapTimeElapsed]) ∧
    (∀ t1 t2 t3 t4 : ℚ, 0 < t4 →
      (gameStart.runTimeAttack
        [(t1, cpPixel 0), (t2, cpPixel 1), (t3, cpPixel 2), (t4, cpPixel 0)]).lap = 2 ∧
      (gameStart.runTimeAttack
        [(t1, cpPixel 0), (t2, cpPixel 1), (t3, cpPixel 2), (t4, cpPixel 0)]).lapTimes = [t4] ∧
      ∀ x ∈ (gameStart.runTimeAttack
        [(t1, cpPixel 0), (t2, cpPixel 1), (t3, cpPixel 2), (t4, cpPixel 0)]).lapTimes, 0 < x) := by
  refine ⟨?_, ?_, ?_⟩
  · intro g elapsed px h
    simp only [Gameplay.timeAttackMode, if_neg h, Bool.false_eq_true, if_false]
    split_ifs <;> rfl
  · intro g elapsed px h1 h2 h3
    simp [Gameplay.timeAttackMode, h1, h2, h3]
  · intro t1 t2 t3 t4 ht4
    norm_num [Gameplay.runTimeAttack, Gameplay.timeAttackMode, Gameplay.checkPoint,
      cpPixel, gameStart]
    exact ht4

/-- Witness: a concrete lap of the [start, 1, 2, start] scenario. -/
theorem Gameplay.lap_increment_witness :
    (gameStart.runTimeAttack
      [(100, cpPixel 0), (200, cpPixel 1), (300, cpPixel 2), (400, cpPixel 0)]).lap = 2 ∧
    (gameStart.runTimeAttack
      [(100, cpPixel 0), (200, cpPixel 1), (300, cpPixel 2), (400, cpPixel 0)]).lapTimes = [400] :=
  ⟨(Gameplay.lap_increment.2.2 100 200 300 400 (by norm_num)).1,
   (Gameplay.lap_increment.2.2 100 200 300 400 (by norm_num)).2.1⟩

/-- C5 counterexample: the height-follow threshold in the code is 16777 on
the computed height value, not 16,777,000 on the packed code. A sampled code
of 20000 (below the claimed sentinel 16,777,000, craft at height 0, default
scale 1 and bias 0) leaves movement.y unchanged at 0, although the claim
demands a full-delta correction to 20000. -/
theorem ShipControls.heightCheck_midrange_code_cex :
    (shipRest.heightCheck c5Env).movementY = shipRest.movementY ∧
    (20000 : ℚ) < 16777000 ∧
    shipRest.movementY + (20000 - 0) ≠ shipRest.movementY := by
  refine ⟨?_, by norm_num, by norm_num [shipRest]⟩
  norm_num [ShipControls.heightCheck, c5Env, ShipControls.heightScale, shipRest]

/-- C5 (amended): the height-follow step compares the computed height value
`sample / heightScale + heightBias` against 16777 (not 16,777,000): at or
above 16777 the vertical movement is untouched (the no-terrain case), and
below 16777 it moves toward the target height, by the full delta when the
craft is below the terrain and by `delta * heightLerp` when above. -/
theorem ShipControls.heightCheck_threshold (s : ShipControls) (env : TickEnv)
    (hs : HeightSample) (h : env.heightSample = some hs) :
    ((16777 : ℚ) ≤ hs.hRaw / ShipControls.heightScale + s.heightBias →
      (s.heightCheck env).movementY = s.movementY) ∧
    (hs.hRaw / ShipControls.heightScale + s.heightBias < 16777 →
      (s.heightCheck env).movementY = s.movementY +
        (if hs.hRaw / ShipControls.heightScale + s.heightBias - hs.posY > 0
         then hs.hRaw / ShipControls.heightScale + s.heightBias - hs.posY
         else (hs.hRaw / ShipControls.heightScale + s.heightBias - hs.posY) *
           ShipControls.heightLerp)) := by
  constructor
  · intro hge
    simp only [ShipControls.heightCheck, h]
    rw [if_neg (by linarith)]
  · intro hlt
    simp only [ShipControls.heightCheck, h]
    rw [if_pos hlt]

/-- Witness: the specification's sentinel example, a sampled code of
17,000,000, leaves the vertical movement untouched. -/
theorem ShipControls.heightCheck_threshold_witness :
    (shipRest.heightCheck c5SentinelEnv).movementY = shipRest.movementY :=
  (ShipControls.heightCheck_threshold shipRest c5SentinelEnv ⟨0, 17000000⟩ rfl).1
    (by norm_num [ShipControls.heightScale, shipRest])

/-- C2 (amended): in a wall-collision tick whose left repulsion probe reads
red 200 and right probe reads red 50, the code takes the `rCol < lCol`
branch: the repulsion force is increased along positive x — the craft's left
direction, the side whose probe read the higher (more open) value — and
`collision.right`, not `collision.left`, is set. -/
theorem ShipControls.collisionCheck_repulses_toward_open_side (s : ShipControls)
    (dt : ℚ) (env : TickEnv) (cs : CollisionSample)
    (hdet : s.collisionDetection = true) (hcs : env.collisionSample = some cs)
    (hr : cs.r < 255) (hl : cs.lCol = 200) (hrc : cs.rCol = 50) :
    (s.collisionCheck dt env).collisionRight = true ∧
    (s.collisionCheck dt env).collisionLeft = false ∧
    (s.collisionCheck dt env).repulsionForceX = s.repulsionForceX +
      max 0.8 (min ShipControls.repulsionCap (s.speed * ShipControls.repulsionRatio)) ∧
    (0 : ℚ) < max 0.8 (min ShipControls.repulsionCap (s.speed * ShipControls.repulsionRatio)) := by
  have hamount : (0 : ℚ) < max 0.8 (min ShipControls.repulsionCap (s.speed * ShipControls.repulsionRatio)) :=
    lt_of_lt_of_le (by norm_num) (le_max_left _ _)
  simp only [ShipControls.collisionCheck, hdet, hcs, hl, hrc]
  rw [if_neg (show ¬(true = false) by simp)]
  by_cases hsd : s.shieldDelay > 0
  · rw [if_pos hsd, if_pos hr, if_neg (show ¬((50 : ℕ) > 200) by norm_num),
      if_pos (show (50 : ℕ) < 200 by norm_num),
      if_neg (show ¬((50 : ℕ) < 128 ∧ (200 : ℕ) < 128 ∧ cs.fCol < 128) from
        fun h => absurd h.2.1 (by norm_num))]
    exact ⟨rfl, rfl, rfl, hamount⟩
  · rw [if_neg hsd, if_pos hr, if_neg (show ¬((50 : ℕ) > 200) by norm_num),
      if_pos (show (50 : ℕ) < 200 by norm_num),
      if_neg (show ¬((50 : ℕ) < 128 ∧ (200 : ℕ) < 128 ∧ cs.fCol < 128) from
        fun h => absurd h.2.1 (by norm_num))]
    exact ⟨rfl, rfl, rfl, hamount⟩

/-- Witness: the concrete collision tick of the scenario, through the whole
`collisionCheck`. -/
theorem ShipControls.collisionCheck_repulses_toward_open_side_witness :
    (c2Ship.collisionCheck 1 c2Env).collisionRight = true ∧
    (c2Ship.collisionCheck 1 c2Env).collisionLeft = false ∧
    (c2Ship.collisionCheck 1 c2Env).repulsionForceX = c2Ship.repulsionForceX +
      max 0.8 (min ShipControls.repulsionCap (c2Ship.speed * ShipControls.repulsionRatio)) :=
  ⟨(ShipControls.collisionCheck_repulses_toward_open_side c2Ship 1 c2Env
      ⟨100, 0, 0, 255, 200, 50, 200⟩ rfl rfl (by norm_num) rfl rfl).1,
   (ShipControls.collisionCheck_repulses_toward_open_side c2Ship 1 c2Env
      ⟨100, 0, 0, 255, 200, 50, 200⟩ rfl rfl (by norm_num) rfl rfl).2.1,
   (ShipControls.collisionCheck_repulses_toward_open_side c2Ship 1 c2Env
      ⟨100, 0, 0, 255, 200, 50, 200⟩ rfl rfl (by norm_num) rfl rfl).2.2.1⟩

/-- C2 counterexample: in the wall-collision tick with left probe red 200 and
right probe red 50, `collision.left` is false (the claim says true):
`collision.right` is set and the repulsion force is +2.5 along x, the craft's
left direction (speed 5 times `repulsionRatio` 0.5, capped at 2.5). -/
theorem ShipControls.collisionCheck_left_probe_open_cex :
    (c2Ship.collisionCheck 1 c2Env).collisionLeft = false ∧
    (c2Ship.collisionCheck 1 c2Env).collisionRight = true ∧
    (c2Ship.collisionCheck 1 c2Env).repulsionForceX = 2.5 := by
  norm_num [ShipControls.collisionCheck, c2Ship, c2Env, shipRest,
    ShipControls.repulsionCap, ShipControls.repulsionRatio]

/-- The repulsion step never touches speed. -/
lemma ShipControls.repulsionStep_speed (s : ShipControls) (dt : ℚ) :
    (s.repulsionStep dt).speed = s.speed := by
  unfold ShipControls.repulsionStep
  split_ifs <;> rfl

/-- The repulsion step never touches the destroyed flag. -/
lemma ShipControls.repulsionStep_destroyed (s : ShipControls) (dt : ℚ) :
    (s.repulsionStep dt).destroyed = s.destroyed := by
  unfold ShipControls.repulsionStep
  split_ifs <;> rfl

/-- The left air-brake block never touches the destroyed flag. -/
lemma ShipControls.ltriggerStep_destroyed (s : ShipControls) (dt : ℚ) :
    (s.ltriggerStep dt).destroyed = s.destroyed := by
  simp only [ShipControls.ltriggerStep]
  split_ifs <;> rfl

/-- The right air-brake block never touches the destroyed flag. -/
lemma ShipControls.rtriggerStep_destroyed (s : ShipControls) (dt : ℚ) :
    (s.rtriggerStep dt).destroyed = s.destroyed := by
  simp only [ShipControls.rtriggerStep]
  split_ifs <;> rfl

/-- The inline phase of `update` never touches the destroyed flag. -/
lemma ShipControls.updateInline_destroyed (s : ShipControls) (dt : ℚ) :
    (s.updateInline dt).destroyed = s.destroyed := by
  simp only [ShipControls.updateInline]
  rw [ShipControls.repulsionStep_destroyed]
  split_ifs <;>
    simp [ShipControls.ltriggerStep_destroyed, ShipControls.rtriggerStep_destroyed]

/-- The booster check never touches the destroyed flag. -/
lemma ShipControls.boosterCheck_destroyed (s : ShipControls) (dt : ℚ) (env : TickEnv) :
    (s.boosterCheck dt env).destroyed = s.destroyed := by
  unfold ShipControls.boosterCheck
  cases env.boosterPixel <;> rfl

/-- The height check never touches the destroyed flag. -/
lemma ShipControls.heightCheck_destroyed (s : ShipControls) (env : TickEnv) :
    (s.heightCheck env).destroyed = s.destroyed := by
  cases hval : env.heightSample with
  | none => simp [ShipControls.heightCheck, hval]
  | some hs =>
    simp only [ShipControls.heightCheck, hval]
    split_ifs <;> rfl

/-- The collision check never touches the destroyed flag (the fall transition
sets the falling flag; the delayed destruction is asynchronous). -/
lemma ShipControls.collisionCheck_destroyed (s : ShipControls) (dt : ℚ) (env : TickEnv) :
    (s.collisionCheck dt env).destroyed = s.destroyed := by
  by_cases hdet : s.collisionDetection = false
  · simp [ShipControls.collisionCheck, hdet]
  · cases hcs : env.collisionSample with
    | none =>
      simp only [ShipControls.collisionCheck, hcs]
      rw [if_neg hdet]
    | some cs =>
      simp only [ShipControls.collisionCheck, hcs]
      rw [if_neg hdet]
      split_ifs <;> rfl

/-- C8: in any non-falling tick the post-update shield is never negative, and
whenever it has reached 0 the destroyed flag is true that same tick (the
depletion branch clamps the shield to 0 and calls `destroy`); the destroyed
flag, once true, is preserved by every update (no phase of the pipeline ever
clears it), so the false-to-true transition happens exactly once per
depletion; and only an explicit `reset` makes it false again, refilling the
shield to `maxShield`. -/
theorem ShipControls.shield_depletion (s : ShipControls) (dt : ℚ) (env : TickEnv) (ry : ℚ) :
    (s.falling = false →
      ((s.update dt env).shield ≤ 0 →
        (s.update dt env).shield = 0 ∧ (s.update dt env).destroyed = true) ∧
      0 ≤ (s.update dt env).shield) ∧
    (s.destroyed = true → (s.update dt env).destroyed = true) ∧
    ((s.reset ry).destroyed = false ∧ (s.reset ry).shield = ShipControls.maxShield) := by
  refine ⟨?_, ?_, rfl, rfl⟩
  · intro hf
    simp only [ShipControls.update, hf, Bool.false_eq_true, if_false]
    split_ifs with hsh
    · exact ⟨fun _ => ⟨rfl, rfl⟩, le_refl 0⟩
    · push_neg at hsh
      exact ⟨fun hcontra => absurd hcontra (by linarith), le_of_lt hsh⟩
  · intro hd
    simp only [ShipControls.update]
    split_ifs with hfall hsh
    · exact hd
    · rfl
    · rw [ShipControls.collisionCheck_destroyed, ShipControls.heightCheck_destroyed,
        ShipControls.boosterCheck_destroyed, ShipControls.updateInline_destroyed]
      exact hd

/-- Witness: a depleted craft (shield already 0, no collision this tick) is
destroyed by the update, and `reset` revives it. -/
theorem ShipControls.shield_depletion_witness :
    (({ shipRest with shield := 0 } : ShipControls).update 1 quietEnv).shield = 0 ∧
    (({ shipRest with shield := 0 } : ShipControls).update 1 quietEnv).destroyed = true ∧
    (shipRest.reset 0).destroyed = false :=
  ⟨((ShipControls.shield_depletion { shipRest with shield := 0 } 1 quietEnv 0).1 rfl).1
      (by norm_num [ShipControls.update, ShipControls.updateInline, ShipControls.angularAmount,
        ShipControls.repulsionStep, ShipControls.boosterCheck, ShipControls.heightCheck,
        ShipControls.collisionCheck, ShipControls.destroy, quietEnv, shipRest,
        ShipControls.epsilon]) |>.1,
   ((ShipControls.shield_depletion { shipRest with shield := 0 } 1 quietEnv 0).1 rfl).1
      (by norm_num [ShipControls.update, ShipControls.updateInline, ShipControls.angularAmount,
        ShipControls.repulsionStep, ShipControls.boosterCheck, ShipControls.heightCheck,
        ShipControls.collisionCheck, ShipControls.destroy, quietEnv, shipRest,
        ShipControls.epsilon]) |>.2,
   (ShipControls.shield_depletion shipRest 1 quietEnv 0).2.2.1⟩

/-- The booster check never touches speed. -/
lemma ShipControls.boosterCheck_speed (s : ShipControls) (dt : ℚ) (env : TickEnv) :
    (s.boosterCheck dt env).speed = s.speed := by
  cases hp : env.boosterPixel <;> simp [ShipControls.boosterCheck, hp]

/-- The height check never touches speed. -/
lemma ShipControls.heightCheck_speed (s : ShipControls) (env : TickEnv) :
    (s.heightCheck env).speed = s.speed := by
  cases hval : env.heightSample with
  | none => simp [ShipControls.heightCheck, hval]
  | some hs =>
    simp only [ShipControls.heightCheck, hval]
    split_ifs <;> rfl

/-- After the inline phase, speed has the clamped form
`max 0 (min x maxSpeed)`. -/
lemma ShipControls.updateInline_speed (s : ShipControls) (dt : ℚ) :
    ∃ x : ℚ, (s.updateInline dt).speed = max 0 (min x ShipControls.maxSpeed) := by
  simp only [ShipControls.updateInline]
  rw [ShipControls.repulsionStep_speed]
  exact ⟨_, rfl⟩

/-- The clamp collapses to 0 on nonpositive input. -/
lemma ShipControls.clamp_nonpos (x : ℚ) (hx : x ≤ 0) :
    max 0 (min x ShipControls.maxSpeed) = 0 := by
  rw [min_eq_left (le_trans hx (by norm_num [ShipControls.maxSpeed]))]
  exact max_eq_left hx

/-- With no accelerate intention and nonpositive speed, the inline phase
clamps speed to exactly 0. -/
lemma ShipControls.updateInline_speed_zero (s : ShipControls) (dt : ℚ) (hdt : 0 ≤ dt)
    (hk : s.keyForward = false) (h0 : s.speed ≤ 0) :
    (s.updateInline dt).speed = 0 := by
  simp only [ShipControls.updateInline]
  rw [ShipControls.repulsionStep_speed]
  apply ShipControls.clamp_nonpos
  have ha : (0 : ℚ) ≤ ShipControls.airResist * dt :=
    mul_nonneg (by norm_num [ShipControls.airResist]) hdt
  have hb : (0 : ℚ) ≤ ShipControls.airBrake * dt :=
    mul_nonneg (by norm_num [ShipControls.airBrake]) hdt
  simp only [ShipControls.ltriggerStep, ShipControls.rtriggerStep, hk]
  split_ifs <;> simp_all <;> linarith

/-- A craft at speed 0 stays at speed 0 through the collision check: a
head-on collision zeroes the speed and the damping factors multiply zero. -/
lemma ShipControls.collisionCheck_speed_zero (s : ShipControls) (dt : ℚ) (env : TickEnv)
    (h0 : s.speed = 0) :
    (s.collisionCheck dt env).speed = 0 := by
  by_cases hdet : s.collisionDetection = false
  · simp only [ShipControls.collisionCheck]
    rw [if_pos hdet]
    exact h0
  · cases hcs : env.collisionSample with
    | none =>
      simp only [ShipControls.collisionCheck, hcs]
      rw [if_neg hdet]
      exact h0
    | some cs =>
      simp only [ShipControls.collisionCheck, hcs]
      rw [if_neg hdet]
      split_ifs <;> simp [ShipControls.fall, h0]

/-- The collision check keeps a speed within `[0, maxSpeed]` inside that
range: the damping multiplies by factors in `[0, 1]` whenever the sampled
wall pixel is a nonnegative red value below 255, and a head-on collision
zeroes the speed outright. -/
lemma ShipControls.collisionCheck_speed_mem (s : ShipControls) (dt : ℚ) (env : TickEnv)
    (henv : env.WF) (h0 : 0 ≤ s.speed) (h1 : s.speed ≤ ShipControls.maxSpeed) :
    0 ≤ (s.collisionCheck dt env).speed ∧
    (s.collisionCheck dt env).speed ≤ ShipControls.maxSpeed := by
  by_cases hdet : s.collisionDetection = false
  · simp only [ShipControls.collisionCheck]
    rw [if_pos hdet]
    exact ⟨h0, h1⟩
  · cases hcs : env.collisionSample with
    | none =>
      simp only [ShipControls.collisionCheck, hcs]
      rw [if_neg hdet]
      exact ⟨h0, h1⟩
    | some cs =>
      have hr0 : 0 ≤ cs.r := henv cs (by rw [hcs]; rfl)
      have hmax7 : ShipControls.maxSpeed = 7 := by norm_num [ShipControls.maxSpeed]
      rw [hmax7] at h1 ⊢
      simp only [ShipControls.collisionCheck, hcs, ShipControls.collisionSpeedDecrease,
        ShipControls.collisionSpeedDecreaseCoef, ShipControls.fall]
      rw [if_neg hdet]
      split_ifs with hsd hwall h3 h4 h5 h6 h7 h8 <;>
        constructor <;>
        first
          | exact h0
          | exact h1
          | nlinarith [hr0, h0, h1, mul_nonneg h0 hr0, mul_nonneg hr0 h0, sq_nonneg cs.r,
              mul_nonneg (mul_nonneg h0 hr0) hr0]

/-- No phase of the update pipeline touches the key state; in particular the
accelerate intention is preserved by a whole update. -/
lemma ShipControls.update_keyForward (s : ShipControls) (dt : ℚ) (env : TickEnv) :
    (s.update dt env).keyForward = s.keyForward := by
  have hrep : ∀ z : ShipControls, (z.repulsionStep dt).keyForward = z.keyForward := by
    intro z
    unfold ShipControls.repulsionStep
    split_ifs <;> rfl
  have hlt : ∀ z : ShipControls, (z.ltriggerStep dt).keyForward = z.keyForward := by
    intro z
    simp only [ShipControls.ltriggerStep]
    split_ifs <;> rfl
  have hrt : ∀ z : ShipControls, (z.rtriggerStep dt).keyForward = z.keyForward := by
    intro z
    simp only [ShipControls.rtriggerStep]
    split_ifs <;> rfl
  have hinl : ∀ z : ShipControls, (z.updateInline dt).keyForward = z.keyForward := by
    intro z
    simp only [ShipControls.updateInline]
    rw [hrep]
    split_ifs <;> simp [hlt, hrt]
  have hboo : ∀ z : ShipControls, (z.boosterCheck dt env).keyForward = z.keyForward := by
    intro z
    cases hp : env.boosterPixel <;> simp [ShipControls.boosterCheck, hp]
  have hhei : ∀ z : ShipControls, (z.heightCheck env).keyForward = z.keyForward := by
    intro z
    cases hval : env.heightSample with
    | none => simp [ShipControls.heightCheck, hval]
    | some hs =>
      simp only [ShipControls.heightCheck, hval]
      split_ifs <;> rfl
  have hcol : ∀ z : ShipControls, (z.collisionCheck dt env).keyForward = z.keyForward := by
    intro z
    by_cases hdet : z.collisionDetection = false
    · simp only [ShipControls.collisionCheck]
      rw [if_pos hdet]
    · cases hcs : env.collisionSample with
      | none =>
        simp only [ShipControls.collisionCheck, hcs]
        rw [if_neg hdet]
      | some cs =>
        simp only [ShipControls.collisionCheck, hcs]
        rw [if_neg hdet]
        split_ifs <;> rfl
  simp only [ShipControls.update]
  split_ifs with hfall hsh
  · rfl
  · show ((((s.updateInline dt).boosterCheck dt env).heightCheck env).collisionCheck
        dt env).keyForward = s.keyForward
    rw [hcol, hhei, hboo, hinl]
  · rw [hcol, hhei, hboo, hinl]

/-- One full update of a craft at speed 0 with no accelerate intention leaves
its speed at exactly 0. -/
lemma ShipControls.update_speed_zero (s : ShipControls) (env : TickEnv)
    (h0 : s.speed = 0) (hk : s.keyForward = false) :
    (s.update 1 env).speed = 0 := by
  have hchain : ((((s.updateInline 1).boosterCheck 1 env).heightCheck env).collisionCheck
      1 env).speed = 0 := by
    apply ShipControls.collisionCheck_speed_zero
    rw [ShipControls.heightCheck_speed, ShipControls.boosterCheck_speed]
    exact ShipControls.updateInline_speed_zero s 1 (by norm_num) hk (le_of_eq h0)
  simp only [ShipControls.update]
  split_ifs with hfall hsh
  · exact h0
  · exact hchain
  · exact hchain

/-- Iterated zero-speed preservation over any tick environments. -/
lemma ShipControls.runTicks_speed_zero : ∀ (envs : List TickEnv) (s : ShipControls),
    s.speed = 0 → s.keyForward = false → (s.runTicks envs).speed = 0 := by
  intro envs
  induction envs with
  | nil =>
    intro s h0 _
    exact h0
  | cons e es ih =>
    intro s h0 hk
    have hstep := ShipControls.update_speed_zero s e h0 hk
    have hkey := ShipControls.update_keyForward s 1 e
    rw [hk] at hkey
    exact ih (s.update 1 e) hstep hkey

/-- C1: for every dt >= 0 and craft state with speed in `[0, maxSpeed]`
(every state reachable from `reset`), a full update leaves speed in
`[0, maxSpeed]` for any well-formed tick environment; and a craft at rest
with no accelerate intention, updated for up to 10 ticks with dt = 1 in any
environments, has speed exactly 0 after every tick. -/
theorem ShipControls.update_speed_clamped (s : ShipControls) (dt : ℚ) (env : TickEnv)
    (hdt : 0 ≤ dt) (hs0 : 0 ≤ s.speed) (hs1 : s.speed ≤ ShipControls.maxSpeed)
    (henv : env.WF) :
    (0 ≤ (s.update dt env).speed ∧ (s.update dt env).speed ≤ ShipControls.maxSpeed) ∧
    (∀ (s0 : ShipControls) (envs : List TickEnv), s0.speed = 0 → s0.keyForward = false →
      envs.length ≤ 10 → (s0.runTicks envs).speed = 0) := by
  constructor
  · obtain ⟨x, hx⟩ := ShipControls.updateInline_speed s dt
    have hmem : 0 ≤ ((((s.updateInline dt).boosterCheck dt env).heightCheck
          env).collisionCheck dt env).speed ∧
        ((((s.updateInline dt).boosterCheck dt env).heightCheck env).collisionCheck
          dt env).speed ≤ ShipControls.maxSpeed := by
      apply ShipControls.collisionCheck_speed_mem _ _ _ henv
      · rw [ShipControls.heightCheck_speed, ShipControls.boosterCheck_speed, hx]
        exact le_max_left _ _
      · rw [ShipControls.heightCheck_speed, ShipControls.boosterCheck_speed, hx]
        exact max_le (by norm_num [ShipControls.maxSpeed]) (min_le_right _ _)
    simp only [ShipControls.update]
    split_ifs with hfall hsh
    · exact ⟨hs0, hs1⟩
    · exact hmem
    · exact hmem
  · intro s0 envs h0 hk _
    exact ShipControls.runTicks_speed_zero envs s0 h0 hk

/-- Witness: a collision tick at speed 5 keeps speed within `[0, maxSpeed]`,
and the resting craft stays at speed 0 over 10 quiet ticks. -/
theorem ShipControls.update_speed_clamped_witness :
    (0 ≤ (c2Ship.update 1 c2Env).speed ∧
      (c2Ship.update 1 c2Env).speed ≤ ShipControls.maxSpeed) ∧
    (shipRest.runTicks [quietEnv, quietEnv, quietEnv, quietEnv, quietEnv,
      quietEnv, quietEnv, quietEnv, quietEnv, quietEnv]).speed = 0 :=
  ⟨(ShipControls.update_speed_clamped c2Ship 1 c2Env (by norm_num)
      (by norm_num [c2Ship, shipRest]) (by norm_num [c2Ship, shipRest, ShipControls.maxSpeed])
      (by intro cs hcs; simp [c2Env] at hcs; subst hcs; norm_num)).1,
   (ShipControls.update_speed_clamped c2Ship 1 c2Env (by norm_num)
      (by norm_num [c2Ship, shipRest]) (by norm_num [c2Ship, shipRest, ShipControls.maxSpeed])
      (by intro cs hcs; simp [c2Env] at hcs; subst hcs; norm_num)).2
     shipRest _ rfl rfl (by norm_num)⟩
